import Mathlib

/-!
Verification development for the Quant WebWorks bridge runtime.

Shallow embedding of:
- `internal/bridge/adapters/grpc_adapter.go` (connection pool, gRPC call
  path, error taxonomy mapping, server interceptors);
- `archive/import_fix_backup_20250323_030145/discovery_service.go.backup`
  (service discovery registry);
- the bridge adapter base implementation (`BaseAdapter`, latency EWMA).

Go maps are embedded as association lists with replace-on-insert semantics;
`time.Now()` is passed explicitly as a timestamp argument; goroutine-free
sequential semantics are used (every operation in the source runs under the
owning lock). gRPC client connections are identified by the index of the
dial that produced them.
-/

namespace QuantBridge

deriving instance DecidableEq for Except

/-- A gRPC client connection handle, identified by dial order. -/
abbrev Conn := Nat

/-- `ConnectionPool` from grpc_adapter.go (dial options elided: they do not
affect control flow). -/
structure ConnectionPool where
  target : String
  connections : List Conn
  currentIndex : Nat
  size : Nat
  healthChecks : Bool
  deriving Repr, DecidableEq

/-- Pool construction as performed by `getConnection`
(grpc_adapter.go:398-404): empty connection list, cursor 0. -/
def mkPool (target : String) (size : Nat) (healthChecks : Bool) : ConnectionPool :=
  { target := target, connections := [], currentIndex := 0, size := size,
    healthChecks := healthChecks }

/-- Outcome of `ConnectionPool.Initialize`: the returned error (if any), the
final `p.connections` slice, and the list of connections that were explicitly
closed during the attempt. -/
structure InitOutcome where
  res : Except String Unit
  conns : List Conn
  closed : List Conn
  deriving Repr, DecidableEq

/-- The dial loop of `ConnectionPool.Initialize` (grpc_adapter.go:514-530).
`dialErr i` is the error produced by the `i`-th `grpc.DialContext`, `none`
meaning the dial succeeded and produced connection handle `i`. On a dial
failure every connection accumulated so far is closed and `p.connections`
is set to `nil`. -/
def initFrom (dialErr : Nat → Option String) : Nat → Nat → List Conn → InitOutcome
  | _, 0, acc => ⟨Except.ok (), acc, []⟩
  | i, fuel+1, acc =>
    match dialErr i with
    | some e => ⟨Except.error e, [], acc⟩
    | none => initFrom dialErr (i+1) fuel (acc ++ [i])

/-- `ConnectionPool.Initialize` (grpc_adapter.go:510-533): dials `p.size`
connections, appending to `p.connections`. Returns the updated pool, the
returned error, and the connections closed during the attempt. -/
def poolInit (dialErr : Nat → Option String) (p : ConnectionPool) :
    ConnectionPool × Except String Unit × List Conn :=
  let o := initFrom dialErr 0 p.size p.connections
  ({ p with connections := o.conns }, o.res, o.closed)

/-- `ConnectionPool.Get` (grpc_adapter.go:536-549): error when the pool is
empty, otherwise return the connection at the cursor and advance the cursor
modulo the pool length. -/
def poolGet (p : ConnectionPool) : Except String (Conn × ConnectionPool) :=
  if p.connections.length = 0 then
    Except.error "no connections available in pool"
  else
    Except.ok (p.connections.getD p.currentIndex 0,
      { p with currentIndex := (p.currentIndex + 1) % p.connections.length })

/-- A sequence of `n` consecutive `Get` calls on a pool, collecting each
call's result and threading the pool state. -/
def poolGetSeq : Nat → ConnectionPool → List (Except String Conn) × ConnectionPool
  | 0, p => ([], p)
  | n+1, p =>
    match poolGet p with
    | Except.error e =>
        let r := poolGetSeq n p
        (Except.error e :: r.1, r.2)
    | Except.ok (c, p') =>
        let r := poolGetSeq n p'
        (Except.ok c :: r.1, r.2)

/-! ### gRPC error taxonomy (grpc_adapter.go:697-877) -/

/-- gRPC status codes (google.golang.org/grpc/codes). -/
inductive GrpcCode where
  | ok | canceled | unknown | invalidArgument | deadlineExceeded | notFound
  | alreadyExists | permissionDenied | resourceExhausted | failedPrecondition
  | aborted | outOfRange | unimplemented | internal | unavailable | dataLoss
  | unauthenticated
  deriving Repr, DecidableEq

/-- Structured error details attached to a gRPC status
(google.golang.org/genproto errdetails), as consumed by
`extractErrorDetails`. -/
inductive ErrDetail where
  | badRequest (fieldViolations : List (String × String))
  | requestInfo (requestId servingData : String)
  | errorInfo (reason domain : String) (metadata : List (String × String))
  | preconditionFailure (violations : List (String × String × String))
  | quotaFailure (violations : List (String × String))
  | other (value : String)
  deriving Repr, DecidableEq

/-- One extracted detail record as built by `extractErrorDetails`
(grpc_adapter.go:792-856). -/
inductive DetailRec where
  | badRequest (fieldViolations : List (String × String))
  | requestInfo (requestId servingData : String)
  | errorInfo (reason domain : String) (metadata : List (String × String))
  | preconditionFailure (violations : List (String × String × String))
  | quotaFailure (violations : List (String × String))
  | unknown (value : String)
  deriving Repr, DecidableEq

/-- `extractErrorDetails` (grpc_adapter.go:792-856): maps every status
detail to its record form. -/
def extractErrorDetails (details : List ErrDetail) : List DetailRec :=
  details.map fun d =>
    match d with
    | ErrDetail.badRequest fv => DetailRec.badRequest fv
    | ErrDetail.requestInfo rid sd => DetailRec.requestInfo rid sd
    | ErrDetail.errorInfo r dom md => DetailRec.errorInfo r dom md
    | ErrDetail.preconditionFailure v => DetailRec.preconditionFailure v
    | ErrDetail.quotaFailure v => DetailRec.quotaFailure v
    | ErrDetail.other s => DetailRec.unknown s

/-- `BridgeError` (grpc_adapter.go:859-863): canonical bridge error with
code, message and extracted details. -/
structure BridgeError where
  code : String
  message : String
  details : List DetailRec
  deriving Repr, DecidableEq

/-- A Go `error` value as observed by `mapGRPCError`: either a gRPC
status-bearing error (`status.FromError` succeeds) or a plain error. -/
inductive GoError where
  | statusErr (code : GrpcCode) (message : String) (details : List ErrDetail)
  | plainErr (msg : String)
  deriving Repr, DecidableEq

/-- Result of `mapGRPCError`: a canonical `BridgeError`, or the plain
`errors.New("unknown error")` fallback when the error carries no status. -/
inductive MappedError where
  | bridge (e : BridgeError)
  | raw (msg : String)
  deriving Repr, DecidableEq

/-- The canonical code string the `mapGRPCError` switch assigns to each
status code (grpc_adapter.go:707-788); the `default` arm yields UNKNOWN. -/
def grpcCodeName (c : GrpcCode) : String :=
  match c with
  | GrpcCode.invalidArgument => "INVALID_ARGUMENT"
  | GrpcCode.notFound => "NOT_FOUND"
  | GrpcCode.alreadyExists => "ALREADY_EXISTS"
  | GrpcCode.permissionDenied => "PERMISSION_DENIED"
  | GrpcCode.resourceExhausted => "RESOURCE_EXHAUSTED"
  | GrpcCode.failedPrecondition => "FAILED_PRECONDITION"
  | GrpcCode.aborted => "ABORTED"
  | GrpcCode.outOfRange => "OUT_OF_RANGE"
  | GrpcCode.unimplemented => "UNIMPLEMENTED"
  | GrpcCode.internal => "INTERNAL"
  | GrpcCode.unavailable => "UNAVAILABLE"
  | GrpcCode.dataLoss => "DATA_LOSS"
  | GrpcCode.unauthenticated => "UNAUTHENTICATED"
  | GrpcCode.deadlineExceeded => "DEADLINE_EXCEEDED"
  | GrpcCode.canceled => "CANCELED"
  | _ => "UNKNOWN"

/-- `mapGRPCError` (grpc_adapter.go:697-789): non-status errors become the
plain "unknown error"; status errors become a `BridgeError` whose code is
given by the switch and whose message/details come from the status. -/
def mapGRPCError (err : GoError) : MappedError :=
  match err with
  | GoError.plainErr _ => MappedError.raw "unknown error"
  | GoError.statusErr c msg det =>
      MappedError.bridge ⟨grpcCodeName c, msg, extractErrorDetails det⟩

/-- The sixteen canonical bridge error kinds of spec section 7. -/
def canonicalKinds : List String :=
  ["INVALID_ARGUMENT", "NOT_FOUND", "ALREADY_EXISTS", "PERMISSION_DENIED",
   "RESOURCE_EXHAUSTED", "FAILED_PRECONDITION", "ABORTED", "OUT_OF_RANGE",
   "UNIMPLEMENTED", "INTERNAL", "UNAVAILABLE", "DATA_LOSS",
   "UNAUTHENTICATED", "DEADLINE_EXCEEDED", "CANCELED", "UNKNOWN"]

/-- The error returned by `GRPCAdapter.Call` on failure: the
`ErrConnectionFailed`-wrapped error from the connection path
(grpc_adapter.go:451), or the result of `mapGRPCError` on an Invoke
failure (grpc_adapter.go:476). -/
inductive CallError where
  | connFailed (msg : String)
  | bridge (e : BridgeError)
  | raw (msg : String)
  deriving Repr, DecidableEq

/-- Whether a `Call` error is a canonical bridge-taxonomy error. -/
def isCanonicalBridgeError (e : CallError) : Bool :=
  match e with
  | CallError.bridge b => canonicalKinds.contains b.code
  | _ => false

/-- The error path of `GRPCAdapter.Call` (grpc_adapter.go:423-480).
`connResult` abstracts `a.getConnection(target)`; `invokeResult` abstracts
the error of `conn.Invoke` (`none` = success). Metrics recording is elided:
it does not affect the returned error. -/
def grpcCall (connResult : Except String Conn) (invokeResult : Option GoError) :
    Except CallError Unit :=
  match connResult with
  | Except.error e => Except.error (CallError.connFailed e)
  | Except.ok _ =>
    match invokeResult with
    | none => Except.ok ()
    | some err =>
        match mapGRPCError err with
        | MappedError.bridge b => Except.error (CallError.bridge b)
        | MappedError.raw m => Except.error (CallError.raw m)

/-! ### Recovery interceptor (grpc_adapter.go:638-666) -/

/-- The metrics counters the interceptors touch (`metrics.Collector`). -/
structure MetricsCollector where
  panicsTotal : Nat := 0
  requestsTotal : Nat := 0
  errorsTotal : Nat := 0
  deriving Repr, DecidableEq

/-- Observable outcome of running a unary handler: a response, an error, or
an uncaught fault unwinding out of the handler. -/
inductive HandlerOutcome where
  | ok (resp : String)
  | err (e : GoError)
  | panicked (msg : String)
  deriving Repr, DecidableEq

/-- `recoveryInterceptor` (grpc_adapter.go:638-666): a fault is recovered,
converted to `status.Errorf(codes.Internal, "internal error")`, and the
`grpc.panics_total` counter is incremented when a collector is present
(`a.metrics != nil`). The interceptor itself returns normally in every
case — the fault never propagates to the transport layer. -/
def recoveryInterceptor (metrics : Option MetricsCollector)
    (handler : HandlerOutcome) : Except GoError String × Option MetricsCollector :=
  match handler with
  | HandlerOutcome.ok resp => (Except.ok resp, metrics)
  | HandlerOutcome.err e => (Except.error e, metrics)
  | HandlerOutcome.panicked _ =>
      (Except.error (GoError.statusErr GrpcCode.internal "internal error" []),
       metrics.map fun m => { m with panicsTotal := m.panicsTotal + 1 })

/-! ### Base adapter statistics (adapter.go, src/unnamed/part_003) -/

/-- `AdapterStats` (part_003:70-82). Durations and timestamps are in
nanoseconds; latencies produced by `time.Since` are nonnegative, so
`time.Duration` arithmetic is embedded over `Nat` (Go integer division and
`Nat` division agree on nonnegative values). The float-valued
`CurrentRateLimitUse` field is elided (never touched by `recordLatency`). -/
structure AdapterStats where
  connectedSince : Nat := 0
  lastActivity : Nat := 0
  messagesReceived : Nat := 0
  messagesSent : Nat := 0
  errors : Nat := 0
  reconnects : Nat := 0
  averageLatency : Nat := 0
  currentConnections : Nat := 0
  maxConnections : Nat := 0
  rateLimitExceeded : Nat := 0
  deriving Repr, DecidableEq

/-- `BaseAdapter.recordLatency` (part_003:220-227): first sample while the
average is zero is stored unchanged; otherwise the stored average becomes
`(avg*9 + duration) / 10`. -/
def recordLatency (stats : AdapterStats) (duration : Nat) : AdapterStats :=
  if stats.averageLatency = 0 then
    { stats with averageLatency := duration }
  else
    { stats with averageLatency := (stats.averageLatency * 9 + duration) / 10 }

/-! ### Service discovery registry (discovery_service.go.backup) -/

/-- `protocols.ServiceInfo`. Modelled from the spec: the `protocols`
package is not in the repository snapshot; fields follow spec section 3
and every use in discovery_service.go.backup (`ID`, `Name`, `Type`,
`Version`, `Address`, `Port`, `Metadata`, `Status`, `LastUpdated` in epoch
millis). -/
structure ServiceInfo where
  id : String
  name : String
  typ : String
  version : String
  address : String
  port : Nat
  metadata : List (String × String)
  status : String
  lastUpdated : Int
  deriving Repr, DecidableEq

/-- `ServiceChangeType` (discovery_service.go.backup:48-55). -/
inductive ServiceChangeType where
  | added | updated | removed
  deriving Repr, DecidableEq

/-- `ServiceChangeEvent` (discovery_service.go.backup:41-45). -/
structure ServiceChangeEvent where
  typ : ServiceChangeType
  serviceInfo : ServiceInfo
  timestamp : Int
  deriving Repr, DecidableEq

/-- `ServiceFilter` (discovery_service.go.backup:58-64). -/
structure ServiceFilter where
  serviceType : String := ""
  version : String := ""
  name : String := ""
  address : String := ""
  metadata : List (String × String) := []
  deriving Repr, DecidableEq

/-- Go map lookup on an association list (first binding wins, as Go maps
hold at most one binding per key). -/
def mapLookup {α : Type} (k : String) : List (String × α) → Option α
  | [] => none
  | (k', v) :: rest => if k' = k then some v else mapLookup k rest

/-- Go map insert: replace the binding in place if the key exists,
otherwise append. -/
def mapInsert {α : Type} (k : String) (v : α) : List (String × α) → List (String × α)
  | [] => [(k, v)]
  | (k', v') :: rest =>
      if k' = k then (k, v) :: rest else (k', v') :: mapInsert k v rest

/-- Go map delete. -/
def mapErase {α : Type} (k : String) : List (String × α) → List (String × α)
  | [] => []
  | (k', v') :: rest =>
      if k' = k then rest else (k', v') :: mapErase k rest

/-- Number of bindings a key has in an association list. -/
def countKey {α : Type} : List (String × α) → String → Nat
  | [], _ => 0
  | (k', _) :: rest, k => (if k' = k then 1 else 0) + countKey rest k

/-- `ServiceFilter.Matches` (discovery_service.go.backup:67-98): sequential
early-false checks on type, version, name, address, then the metadata
super-set loop. -/
def serviceFilterMatches (f : ServiceFilter) (s : ServiceInfo) : Bool :=
  if f.serviceType ≠ "" ∧ f.serviceType ≠ s.typ then false
  else if f.version ≠ "" ∧ f.version ≠ s.version then false
  else if f.name ≠ "" ∧ f.name ≠ s.name then false
  else if f.address ≠ "" ∧ f.address ≠ s.address then false
  else if 0 < f.metadata.length then
    f.metadata.all fun kv =>
      match mapLookup kv.1 s.metadata with
      | some v => v = kv.2
      | none => false
  else true

/-- A registered event listener: a Go channel of `ServiceChangeEvent` with
a fixed buffer capacity and current buffered contents. -/
structure Listener where
  capacity : Nat
  buffer : List ServiceChangeEvent
  deriving Repr, DecidableEq

/-- Non-blocking channel send (`select { case ch <- e: default: }`):
enqueue if there is room, otherwise drop the event. -/
def chanTrySend (l : Listener) (e : ServiceChangeEvent) : Listener :=
  if l.buffer.length < l.capacity then { l with buffer := l.buffer ++ [e] }
  else l

/-- `DiscoveryService` state (discovery_service.go.backup:190-202), with
the configuration fields the embedded operations consult. -/
structure DiscoveryService where
  defaultServiceStatus : String
  enableWatching : Bool
  enableHealthChecks : Bool
  services : List (String × ServiceInfo)
  eventListeners : List (String × Listener)
  initialized : Bool
  deriving Repr, DecidableEq

/-- The registry error conditions (discovery_service.go.backup:16-23 and
inline `errors.New` sites). -/
inductive RegErr where
  | notInitialized
  | invalidServiceInfo
  | serviceNotFound
  | watchingDisabled
  | nilChannel
  | healthChecksDisabled
  | listenerNotFound
  | healthCheckFailed (msg : String)
  deriving Repr, DecidableEq

/-- `notifyListeners` (discovery_service.go.backup:564-580): non-blocking
best-effort delivery of one event to every registered listener. -/
def notifyListeners (d : DiscoveryService) (e : ServiceChangeEvent) :
    DiscoveryService :=
  { d with eventListeners := d.eventListeners.map fun p => (p.1, chanTrySend p.2 e) }

/-- The value stored by a first-time registration: status defaulted when
empty (discovery_service.go.backup:298-300) and `LastUpdated` stamped with
the current time (discovery_service.go.backup:303). -/
def stampedInfo (d : DiscoveryService) (i : ServiceInfo) (t : Int) : ServiceInfo :=
  { (if i.status = "" then { i with status := d.defaultServiceStatus } else i)
    with lastUpdated := t }

/-- `RegisterService` (discovery_service.go.backup:258-329). `now` is the
current time in epoch millis. Returns the new registry state together with
the list of events handed to `notifyListeners` by this call. -/
def registerService (d : DiscoveryService) (info : ServiceInfo) (now : Int) :
    Except RegErr (DiscoveryService × List ServiceChangeEvent) :=
  if d.initialized = false then Except.error RegErr.notInitialized
  else if info.id = "" ∨ info.name = "" ∨ info.address = "" ∨ info.port = 0 then
    Except.error RegErr.invalidServiceInfo
  else
    match mapLookup info.id d.services with
    | some _ =>
        let ev : ServiceChangeEvent := ⟨ServiceChangeType.updated, info, now⟩
        let d' := { d with services := mapInsert info.id info d.services }
        Except.ok (notifyListeners d' ev, [ev])
    | none =>
        let info1 := if info.status = "" then
          { info with status := d.defaultServiceStatus } else info
        let info2 := { info1 with lastUpdated := now }
        let ev : ServiceChangeEvent := ⟨ServiceChangeType.added, info2, now⟩
        let d' := { d with services := mapInsert info.id info2 d.services }
        Except.ok (notifyListeners d' ev, [ev])

/-- `DeregisterService` (discovery_service.go.backup:332-368). -/
def deregisterService (d : DiscoveryService) (serviceID : String) (now : Int) :
    Except RegErr (DiscoveryService × List ServiceChangeEvent) :=
  if d.initialized = false then Except.error RegErr.notInitialized
  else
    match mapLookup serviceID d.services with
    | none => Except.error RegErr.serviceNotFound
    | some info =>
        let ev : ServiceChangeEvent := ⟨ServiceChangeType.removed, info, now⟩
        let d' := { d with services := mapErase serviceID d.services }
        Except.ok (notifyListeners d' ev, [ev])

/-- `FindServices` (discovery_service.go.backup:389-406): linear scan of
the service map, keeping the entries the filter matches. -/
def findServices (d : DiscoveryService) (f : ServiceFilter) :
    Except RegErr (List ServiceInfo) :=
  if d.initialized = false then Except.error RegErr.notInitialized
  else Except.ok (((d.services.map Prod.snd).filter fun s => serviceFilterMatches f s))

/-- `updateServiceStatus` (discovery_service.go.backup:530-561): re-stamp
and store the entry; emit one `updated` event only when the status actually
changed. Returns the new state and the events handed to `notifyListeners`. -/
def updateServiceStatus (d : DiscoveryService) (serviceID status : String)
    (now : Int) : DiscoveryService × List ServiceChangeEvent :=
  match mapLookup serviceID d.services with
  | none => (d, [])
  | some info =>
      let oldStatus := info.status
      let info' := { info with status := status, lastUpdated := now }
      let d' := { d with services := mapInsert serviceID info' d.services }
      if oldStatus ≠ status then
        let ev : ServiceChangeEvent := ⟨ServiceChangeType.updated, info', now⟩
        (notifyListeners d' ev, [ev])
      else (d', [])

/-- `CheckServiceHealth` (discovery_service.go.backup:492-527).
`checkResult` abstracts the pluggable `healthChecker.CheckHealth` call.
Returns the health verdict, the new registry state and the emitted
events. -/
def checkServiceHealth (d : DiscoveryService) (serviceID : String)
    (checkResult : Except String Bool) (now : Int) :
    Except RegErr (Bool × DiscoveryService × List ServiceChangeEvent) :=
  if d.initialized = false then Except.error RegErr.notInitialized
  else if d.enableHealthChecks = false then Except.error RegErr.healthChecksDisabled
  else
    match mapLookup serviceID d.services with
    | none => Except.error RegErr.serviceNotFound
    | some info =>
        match checkResult with
        | Except.error e => Except.error (RegErr.healthCheckFailed e)
        | Except.ok healthy =>
            if healthy ∧ info.status ≠ "running" then
              let r := updateServiceStatus d serviceID "running" now
              Except.ok (healthy, r.1, r.2)
            else if ¬healthy ∧ info.status = "running" then
              let r := updateServiceStatus d serviceID "failed" now
              Except.ok (healthy, r.1, r.2)
            else Except.ok (healthy, d, [])

/-- The best-effort synchronous replay loop of `WatchServices`
(discovery_service.go.backup:435-452): for every currently registered
service matching the filter, an `added` event is sent to the new channel
non-blocking. -/
def replayChannel (d : DiscoveryService) (f : ServiceFilter) (ch : Listener)
    (now : Int) : Listener :=
  (d.services.map Prod.snd).foldl
    (fun c info =>
      if serviceFilterMatches f info then
        chanTrySend c ⟨ServiceChangeType.added, info, now⟩
      else c) ch

/-- `WatchServices` (discovery_service.go.backup:409-467). The listener id
(generated in Go from the clock) and the caller's channel are passed
explicitly; `none` embeds a nil channel. The listener is stored without its
filter; the filter is used only for the best-effort synchronous replay of
`added` events for currently registered services. -/
def watchServices (d : DiscoveryService) (f : ServiceFilter)
    (listenerID : String) (chan? : Option Listener) (now : Int) :
    Except RegErr (DiscoveryService × String) :=
  if d.initialized = false then Except.error RegErr.notInitialized
  else if d.enableWatching = false then Except.error RegErr.watchingDisabled
  else
    match chan? with
    | none => Except.error RegErr.nilChannel
    | some ch =>
        let ch' := replayChannel d f ch now
        Except.ok
          ({ d with eventListeners := mapInsert listenerID ch' d.eventListeners },
           listenerID)

/-- Well-formed `ServiceInfo` per the `RegisterService` validation
(discovery_service.go.backup:263). -/
def validServiceInfo (i : ServiceInfo) : Prop :=
  i.id ≠ "" ∧ i.name ≠ "" ∧ i.address ≠ "" ∧ i.port ≠ 0

instance (i : ServiceInfo) : Decidable (validServiceInfo i) := by
  unfold validServiceInfo; infer_instance

/-! ## Helper lemmas -/

theorem mapLookup_mapInsert_self {α : Type} (k : String) (v : α) :
    ∀ m : List (String × α), mapLookup k (mapInsert k v m) = some v := by
  intro m
  induction m with
  | nil => simp [mapInsert, mapLookup]
  | cons p rest ih =>
      obtain ⟨k', v'⟩ := p
      by_cases h : k' = k
      · simp [mapInsert, h, mapLookup]
      · simp [mapInsert, h, mapLookup, ih]

theorem mapLookup_notify (e : ServiceChangeEvent) (k : String) :
    ∀ m : List (String × Listener),
      mapLookup k (m.map fun p => (p.1, chanTrySend p.2 e))
        = (mapLookup k m).map fun l => chanTrySend l e := by
  intro m
  induction m with
  | nil => simp [mapLookup]
  | cons p rest ih =>
      obtain ⟨k', v'⟩ := p
      by_cases h : k' = k
      · simp [mapLookup, h]
      · simp [mapLookup, h, ih]

theorem countKey_eq_zero_of_not_mem {α : Type} (k : String) :
    ∀ m : List (String × α), k ∉ m.map Prod.fst → countKey m k = 0 := by
  intro m
  induction m with
  | nil => intro _; rfl
  | cons p rest ih =>
      intro h
      obtain ⟨k', v'⟩ := p
      rw [List.map_cons, List.mem_cons] at h
      push_neg at h
      have hk : ¬ (k' = k) := fun hh => h.1 hh.symm
      simp [countKey, hk, ih h.2]

theorem mem_keys_mapInsert {α : Type} (a k : String) (v : α) :
    ∀ m : List (String × α),
      a ∈ (mapInsert k v m).map Prod.fst ↔ a = k ∨ a ∈ m.map Prod.fst := by
  intro m
  induction m with
  | nil => simp [mapInsert]
  | cons p rest ih =>
      obtain ⟨k', v'⟩ := p
      by_cases h : k' = k
      · subst h
        simp [mapInsert]
      · simp only [mapInsert, if_neg h, List.map_cons, List.mem_cons, ih]
        tauto

theorem nodupKeys_mapInsert {α : Type} (k : String) (v : α) :
    ∀ m : List (String × α), (m.map Prod.fst).Nodup →
      ((mapInsert k v m).map Prod.fst).Nodup := by
  intro m
  induction m with
  | nil => intro _; simp [mapInsert]
  | cons p rest ih =>
      intro h
      obtain ⟨k', v'⟩ := p
      rw [List.map_cons, List.nodup_cons] at h
      by_cases hk : k' = k
      · subst hk
        rw [mapInsert, if_pos rfl, List.map_cons, List.nodup_cons]
        exact h
      · rw [mapInsert, if_neg hk, List.map_cons, List.nodup_cons]
        refine ⟨?_, ih h.2⟩
        intro hmem
        rcases (mem_keys_mapInsert k' k v rest).mp hmem with h1 | h2
        · exact hk h1
        · exact h.1 h2

theorem countKey_mapInsert_self {α : Type} (k : String) (v : α) :
    ∀ m : List (String × α), (m.map Prod.fst).Nodup →
      countKey (mapInsert k v m) k = 1 := by
  intro m
  induction m with
  | nil => intro _; simp [mapInsert, countKey]
  | cons p rest ih =>
      intro h
      obtain ⟨k', v'⟩ := p
      rw [List.map_cons, List.nodup_cons] at h
      by_cases hk : k' = k
      · subst hk
        have h0 : countKey rest k' = 0 := countKey_eq_zero_of_not_mem k' rest h.1
        simp [mapInsert, countKey, h0]
      · simp [mapInsert, countKey, hk, ih h.2]

/-! ## Connection pool lemmas -/

theorem initFrom_ok (dialErr : Nat → Option String) :
    ∀ (fuel i : Nat) (acc : List Conn),
      (∀ j, j < fuel → dialErr (i + j) = none) →
      initFrom dialErr i fuel acc = ⟨Except.ok (), acc ++ List.range' i fuel, []⟩ := by
  intro fuel
  induction fuel with
  | zero => intro i acc _; simp [initFrom]
  | succ n ih =>
      intro i acc h
      have h0 : dialErr i = none := by simpa using h 0 (Nat.succ_pos n)
      have hrest : ∀ j, j < n → dialErr ((i + 1) + j) = none := by
        intro j hj
        have hh := h (j + 1) (by omega)
        have e : i + (j + 1) = (i + 1) + j := by omega
        rwa [e] at hh
      have := ih (i + 1) (acc ++ [i]) hrest
      simp [initFrom, h0, this, List.range'_succ]

theorem initFrom_err (dialErr : Nat → Option String) :
    ∀ (fuel i : Nat) (acc : List Conn) (k : Nat) (e : String),
      k < fuel → dialErr (i + k) = some e →
      (∀ j, j < k → dialErr (i + j) = none) →
      initFrom dialErr i fuel acc = ⟨Except.error e, [], acc ++ List.range' i k⟩ := by
  intro fuel
  induction fuel with
  | zero => intro i acc k e hk _ _; exact absurd hk (Nat.not_lt_zero k)
  | succ n ih =>
      intro i acc k e hk hke hbefore
      cases k with
      | zero =>
          have h0 : dialErr i = some e := by simpa using hke
          simp [initFrom, h0]
      | succ k' =>
          have h0 : dialErr i = none := by simpa using hbefore 0 (Nat.succ_pos k')
          have hke' : dialErr ((i + 1) + k') = some e := by
            have e2 : i + (k' + 1) = (i + 1) + k' := by omega
            rwa [e2] at hke
          have hb' : ∀ j, j < k' → dialErr ((i + 1) + j) = none := by
            intro j hj
            have hh := hbefore (j + 1) (by omega)
            have e3 : i + (j + 1) = (i + 1) + j := by omega
            rwa [e3] at hh
          have := ih (i + 1) (acc ++ [i]) k' e (by omega) hke' hb'
          simp [initFrom, h0, this, List.range'_succ]

theorem poolGetSeq_cyclic (t : String) (sz : Nat) (hc : Bool) (conns : List Conn)
    (hlen : 0 < conns.length) :
    ∀ (count i : Nat), i < conns.length →
      (poolGetSeq count ⟨t, conns, i, sz, hc⟩).1
        = (List.range count).map fun j =>
            Except.ok (conns.getD ((i + j) % conns.length) 0) := by
  intro count
  induction count with
  | zero => intro i _; simp [poolGetSeq]
  | succ n ih =>
      intro i hi
      have hnz : ¬ conns.length = 0 := by omega
      have hstep : (i + 1) % conns.length < conns.length := Nat.mod_lt _ hlen
      have ihh := ih ((i + 1) % conns.length) hstep
      have hget : poolGet ⟨t, conns, i, sz, hc⟩
          = Except.ok (conns.getD i 0,
              ⟨t, conns, (i + 1) % conns.length, sz, hc⟩) := by
        simp [poolGet, hnz]
      simp only [poolGetSeq, hget]
      rw [ihh, List.range_succ_eq_map, List.map_cons, List.map_map]
      congr 1
      · simp [Nat.mod_eq_of_lt hi]
      · apply List.map_congr_left
        intro j _
        simp only [Function.comp]
        have harg : ((i + 1) % conns.length + j) % conns.length
            = (i + (j + 1)) % conns.length := by
          rw [Nat.mod_add_mod]
          congr 1
          omega
        rw [harg]

/-! ## Claim theorems: connection pool -/

/-- Claim C1: for every pool size, `ConnectionPool.Initialize` on a freshly
created pool either succeeds with exactly `size` connections (closing
nothing), or, on the first dial failure, closes every connection opened in
the attempt (the dials `0..k-1` that succeeded), leaves the pool with zero
connections, and returns the dial error — a partially filled pool is never
observable after `Initialize` returns. -/
theorem connectionPool_init_all_or_nothing (dialErr : Nat → Option String)
    (target : String) (size : Nat) (hc : Bool) :
    (∃ conns : List Conn,
        poolInit dialErr (mkPool target size hc)
          = ({ mkPool target size hc with connections := conns }, Except.ok (), [])
        ∧ conns.length = size)
    ∨ (∃ k e, k < size ∧ dialErr k = some e ∧ (∀ j, j < k → dialErr j = none)
        ∧ poolInit dialErr (mkPool target size hc)
            = (mkPool target size hc, Except.error e, List.range k)) := by
  by_cases hall : ∀ j, j < size → dialErr j = none
  · left
    have hok := initFrom_ok dialErr size 0 [] (by intro j hj; simpa using hall j hj)
    refine ⟨List.range size, ?_, by simp⟩
    simp [poolInit, mkPool, hok, List.range_eq_range']
  · right
    push_neg at hall
    obtain ⟨j0, hj0lt, hj0⟩ := hall
    have hex : ∃ j, (dialErr j).isSome := ⟨j0, Option.isSome_iff_ne_none.mpr hj0⟩
    obtain ⟨e, he⟩ := Option.isSome_iff_exists.mp (Nat.find_spec hex)
    have hkle : Nat.find hex ≤ j0 := Nat.find_min' hex (Option.isSome_iff_ne_none.mpr hj0)
    have hklt : Nat.find hex < size := lt_of_le_of_lt hkle hj0lt
    have hbefore : ∀ j, j < Nat.find hex → dialErr j = none := by
      intro j hj
      exact Option.not_isSome_iff_eq_none.mp (Nat.find_min hex hj)
    have herr := initFrom_err dialErr size 0 [] (Nat.find hex) e hklt
      (by simpa using he) (by simpa using hbefore)
    refine ⟨Nat.find hex, e, hklt, he, hbefore, ?_⟩
    simp [poolInit, mkPool, herr, List.range_eq_range']

/-- Claim C3: on a pool of N > 0 connections with cursor 0, N+1 successive
`Get` calls return the connections at indices `[0, 1, ..., N-1, 0]` in that
cyclic order, and `Get` on a pool holding zero connections returns the
"no connections available in pool" error. -/
theorem poolGet_round_robin (t : String) (sz : Nat) (hc : Bool)
    (conns : List Conn) (q : ConnectionPool)
    (hne : conns ≠ []) (hq : q.connections = []) :
    (poolGetSeq (conns.length + 1) ⟨t, conns, 0, sz, hc⟩).1
      = ((List.range conns.length).map fun j => Except.ok (conns.getD j 0))
        ++ [Except.ok (conns.getD 0 0)]
    ∧ poolGet q = Except.error "no connections available in pool" := by
  have hlen : 0 < conns.length := List.length_pos.mpr hne
  constructor
  · have hcyc := poolGetSeq_cyclic t sz hc conns hlen (conns.length + 1) 0 hlen
    rw [hcyc, List.range_succ, List.map_append]
    congr 1
    · apply List.map_congr_left
      intro j hj
      rw [List.mem_range] at hj
      simp [Nat.mod_eq_of_lt hj]
    · simp [Nat.mod_self]
  · simp [poolGet, hq]

/-- Witness for C3 at a concrete three-connection pool and a concrete empty
pool. -/
theorem poolGet_round_robin_witness :
    ([10, 20, 30] : List Conn) ≠ []
    ∧ (⟨"x", [], 0, 0, false⟩ : ConnectionPool).connections = []
    ∧ ((poolGetSeq 4 ⟨"t", [10, 20, 30], 0, 3, true⟩).1
        = ((List.range 3).map fun j => Except.ok (([10, 20, 30] : List Conn).getD j 0))
          ++ [Except.ok (([10, 20, 30] : List Conn).getD 0 0)]
      ∧ poolGet ⟨"x", [], 0, 0, false⟩
          = Except.error "no connections available in pool") :=
  ⟨by decide, by decide,
   poolGet_round_robin "t" 3 true [10, 20, 30] ⟨"x", [], 0, 0, false⟩
     (by decide) (by decide)⟩

/-! ## Claim theorems: call path, interceptors, latency -/

/-- Claim C4 counterexample: a `Call` that fails to obtain a connection
(here: dial error "connection refused") returns the
`ErrConnectionFailed`-wrapped error of grpc_adapter.go:451, which is not a
canonical bridge-taxonomy error — refuting the claim that every failing
invocation returns one of the sixteen canonical kinds. -/
theorem call_conn_failure_not_canonical :
    grpcCall (Except.error "connection refused") none
      = Except.error (CallError.connFailed "connection refused")
    ∧ isCanonicalBridgeError (CallError.connFailed "connection refused") = false := by
  decide

/-- Claim C4 (amended): an Invoke failure carrying a gRPC status is mapped
through `mapGRPCError` to a canonical `BridgeError` — one of the sixteen
kinds, carrying the status message and extracted details; by contrast a
connection-acquisition failure is returned as the
`ErrConnectionFailed`-wrapped error and a status-less Invoke failure as the
plain "unknown error", both outside the canonical taxonomy. -/
theorem call_error_mapping_amended (c : GrpcCode) (msg : String)
    (det : List ErrDetail) (e : String) (inv : Option GoError) (pm : String) :
    (grpcCall (Except.ok 0) (some (GoError.statusErr c msg det))
        = Except.error (CallError.bridge
            ⟨grpcCodeName c, msg, extractErrorDetails det⟩)
      ∧ canonicalKinds.contains (grpcCodeName c) = true)
    ∧ grpcCall (Except.error e) inv = Except.error (CallError.connFailed e)
    ∧ grpcCall (Except.ok 0) (some (GoError.plainErr pm))
        = Except.error (CallError.raw "unknown error") := by
  refine ⟨⟨rfl, ?_⟩, rfl, rfl⟩
  cases c <;> decide

/-- Claim C5: a handler fault during a unary call is converted by the
recovery interceptor into an INTERNAL-code status error returned to the
caller (the interceptor returns normally, so the fault never unwinds past
it and the server keeps serving), and the `grpc.panics_total` counter is
incremented exactly once for that call; a subsequent non-faulting call is
served normally with the counter unchanged. -/
theorem recovery_internal_and_counter (m : MetricsCollector) (pmsg resp : String) :
    recoveryInterceptor (some m) (HandlerOutcome.panicked pmsg)
      = (Except.error (GoError.statusErr GrpcCode.internal "internal error" []),
         some { m with panicsTotal := m.panicsTotal + 1 })
    ∧ recoveryInterceptor (some { m with panicsTotal := m.panicsTotal + 1 })
        (HandlerOutcome.ok resp)
      = (Except.ok resp, some { m with panicsTotal := m.panicsTotal + 1 }) :=
  ⟨rfl, rfl⟩

/-- Claim C8: for every sequence of recorded latency samples, the stored
`AverageLatency` after each sample equals
`(previousAverage * 9 + newSample) / 10` in integer duration arithmetic,
except that a sample recorded while the stored average is zero becomes the
average unchanged. -/
theorem recordLatency_ewma (stats : AdapterStats) (samples : List Nat) (d : Nat) :
    ((samples ++ [d]).foldl recordLatency stats).averageLatency
      = if (samples.foldl recordLatency stats).averageLatency = 0 then d
        else ((samples.foldl recordLatency stats).averageLatency * 9 + d) / 10 := by
  rw [List.foldl_append]
  by_cases h : (samples.foldl recordLatency stats).averageLatency = 0 <;>
    simp [recordLatency, h]

/-! ## Service filter lemmas and claim C7 -/

theorem serviceFilterMatches_eq_true_iff (f : ServiceFilter) (s : ServiceInfo) :
    serviceFilterMatches f s = true ↔
      ((f.serviceType ≠ "" → s.typ = f.serviceType) ∧
       (f.version ≠ "" → s.version = f.version) ∧
       (f.name ≠ "" → s.name = f.name) ∧
       (f.address ≠ "" → s.address = f.address) ∧
       (∀ kv ∈ f.metadata, mapLookup kv.1 s.metadata = some kv.2)) := by
  unfold serviceFilterMatches
  split_ifs with h1 h2 h3 h4 h5
  · simp only [Bool.false_eq_true, false_iff]
    intro hr
    exact h1.2 (hr.1 h1.1).symm
  · simp only [Bool.false_eq_true, false_iff]
    intro hr
    exact h2.2 (hr.2.1 h2.1).symm
  · simp only [Bool.false_eq_true, false_iff]
    intro hr
    exact h3.2 (hr.2.2.1 h3.1).symm
  · simp only [Bool.false_eq_true, false_iff]
    intro hr
    exact h4.2 (hr.2.2.2.1 h4.1).symm
  · push_neg at h1 h2 h3 h4
    rw [List.all_eq_true]
    constructor
    · intro hall
      refine ⟨fun hne => (h1 hne).symm, fun hne => (h2 hne).symm,
              fun hne => (h3 hne).symm, fun hne => (h4 hne).symm, ?_⟩
      intro kv hkv
      have hv := hall kv hkv
      revert hv
      cases hcase : mapLookup kv.1 s.metadata <;> simp
    · intro hr kv hkv
      rw [hr.2.2.2.2 kv hkv]
      simp
  · push_neg at h1 h2 h3 h4
    rw [Nat.not_lt, Nat.le_zero, List.length_eq_zero] at h5
    constructor
    · intro _
      exact ⟨fun hne => (h1 hne).symm, fun hne => (h2 hne).symm,
             fun hne => (h3 hne).symm, fun hne => (h4 hne).symm,
             by simp [h5]⟩
    · intro _; rfl

/-- Claim C7: on an initialized registry, `FindServices` returns a service
iff each non-empty filter field (type, version, name, address) equals the
corresponding service field and every key/value pair of the filter's
metadata is present with an equal value in the service's metadata; empty
filter fields match anything, and a service missing a filter metadata key
is excluded. -/
theorem findServices_filter_iff (d : DiscoveryService) (f : ServiceFilter)
    (s : ServiceInfo) (hinit : d.initialized = true) :
    ∃ results, findServices d f = Except.ok results ∧
      (s ∈ results ↔
        (s ∈ d.services.map Prod.snd ∧
         (f.serviceType ≠ "" → s.typ = f.serviceType) ∧
         (f.version ≠ "" → s.version = f.version) ∧
         (f.name ≠ "" → s.name = f.name) ∧
         (f.address ≠ "" → s.address = f.address) ∧
         (∀ kv ∈ f.metadata, mapLookup kv.1 s.metadata = some kv.2))) := by
  refine ⟨(d.services.map Prod.snd).filter fun x => serviceFilterMatches f x,
    by simp [findServices, hinit], ?_⟩
  rw [List.mem_filter, serviceFilterMatches_eq_true_iff]

/-- Witness for C7: a registry holding one `env=prod` service and one
service without the key; the `env=prod` metadata filter admits the first. -/
theorem findServices_filter_iff_witness :
    (DiscoveryService.mk "running" true true
        [("a", ⟨"a", "svcA", "grpc", "v1", "10.0.0.1", 9000,
                [("env", "prod")], "running", 0⟩),
         ("b", ⟨"b", "svcB", "grpc", "v1", "10.0.0.2", 9001, [], "running", 0⟩)]
        [] true).initialized = true
    ∧ ∃ results,
        findServices
          (DiscoveryService.mk "running" true true
            [("a", ⟨"a", "svcA", "grpc", "v1", "10.0.0.1", 9000,
                    [("env", "prod")], "running", 0⟩),
             ("b", ⟨"b", "svcB", "grpc", "v1", "10.0.0.2", 9001, [], "running", 0⟩)]
            [] true)
          ⟨"", "", "", "", [("env", "prod")]⟩ = Except.ok results ∧
        ((⟨"a", "svcA", "grpc", "v1", "10.0.0.1", 9000,
            [("env", "prod")], "running", 0⟩ : ServiceInfo) ∈ results ↔
          ((⟨"a", "svcA", "grpc", "v1", "10.0.0.1", 9000,
              [("env", "prod")], "running", 0⟩ : ServiceInfo) ∈
            (DiscoveryService.mk "running" true true
              [("a", ⟨"a", "svcA", "grpc", "v1", "10.0.0.1", 9000,
                      [("env", "prod")], "running", 0⟩),
               ("b", ⟨"b", "svcB", "grpc", "v1", "10.0.0.2", 9001, [], "running", 0⟩)]
              [] true).services.map Prod.snd ∧
           ((⟨"", "", "", "", [("env", "prod")]⟩ : ServiceFilter).serviceType ≠ "" →
              ("grpc" : String) = (⟨"", "", "", "", [("env", "prod")]⟩ : ServiceFilter).serviceType) ∧
           ((⟨"", "", "", "", [("env", "prod")]⟩ : ServiceFilter).version ≠ "" →
              ("v1" : String) = (⟨"", "", "", "", [("env", "prod")]⟩ : ServiceFilter).version) ∧
           ((⟨"", "", "", "", [("env", "prod")]⟩ : ServiceFilter).name ≠ "" →
              ("svcA" : String) = (⟨"", "", "", "", [("env", "prod")]⟩ : ServiceFilter).name) ∧
           ((⟨"", "", "", "", [("env", "prod")]⟩ : ServiceFilter).address ≠ "" →
              ("10.0.0.1" : String) = (⟨"", "", "", "", [("env", "prod")]⟩ : ServiceFilter).address) ∧
           (∀ kv ∈ (⟨"", "", "", "", [("env", "prod")]⟩ : ServiceFilter).metadata,
              mapLookup kv.1 ([("env", "prod")] : List (String × String)) = some kv.2))) :=
  ⟨by decide,
   findServices_filter_iff
     (DiscoveryService.mk "running" true true
       [("a", ⟨"a", "svcA", "grpc", "v1", "10.0.0.1", 9000,
               [("env", "prod")], "running", 0⟩),
        ("b", ⟨"b", "svcB", "grpc", "v1", "10.0.0.2", 9001, [], "running", 0⟩)]
       [] true)
     ⟨"", "", "", "", [("env", "prod")]⟩
     ⟨"a", "svcA", "grpc", "v1", "10.0.0.1", 9000, [("env", "prod")], "running", 0⟩
     (by decide)⟩

/-! ## Registration lemmas and claims C2, C10 -/

theorem registerService_update_branch (d : DiscoveryService) (i : ServiceInfo)
    (t : Int) (hinit : d.initialized = true)
    (hnv : ¬ (i.id = "" ∨ i.name = "" ∨ i.address = "" ∨ i.port = 0))
    (v : ServiceInfo) (hex : mapLookup i.id d.services = some v) :
    registerService d i t
      = Except.ok
          (notifyListeners { d with services := mapInsert i.id i d.services }
            ⟨ServiceChangeType.updated, i, t⟩,
           [⟨ServiceChangeType.updated, i, t⟩]) := by
  simp [registerService, hinit, hnv, hex]

theorem registerService_add_branch (d : DiscoveryService) (i : ServiceInfo)
    (t : Int) (hinit : d.initialized = true)
    (hnv : ¬ (i.id = "" ∨ i.name = "" ∨ i.address = "" ∨ i.port = 0))
    (hnone : mapLookup i.id d.services = none) :
    registerService d i t
      = Except.ok
          (notifyListeners
            { d with services := mapInsert i.id (stampedInfo d i t) d.services }
            ⟨ServiceChangeType.added, stampedInfo d i t, t⟩,
           [⟨ServiceChangeType.added, stampedInfo d i t, t⟩]) := by
  simp [registerService, stampedInfo, hinit, hnv, hnone]

/-- Claim C2: on an initialized registry, registering two valid
`ServiceInfo` values sharing one ID leaves exactly one entry under that ID
in the service map, stored as the second value; the second call emits
exactly one event, of type `updated` (not `added`), and a first
registration of a fresh ID emits one `added` event. -/
theorem registerService_same_id_twice (d : DiscoveryService) (i1 i2 : ServiceInfo)
    (t1 t2 : Int) (hinit : d.initialized = true)
    (hkeys : (d.services.map Prod.fst).Nodup)
    (hv1 : validServiceInfo i1) (hv2 : validServiceInfo i2)
    (hid : i2.id = i1.id) :
    ∃ d1 ev1, registerService d i1 t1 = Except.ok (d1, ev1) ∧
      ∃ d2 ev2, registerService d1 i2 t2 = Except.ok (d2, ev2) ∧
        ev2 = [⟨ServiceChangeType.updated, i2, t2⟩] ∧
        countKey d2.services i2.id = 1 ∧
        mapLookup i2.id d2.services = some i2 ∧
        (mapLookup i1.id d.services = none →
          ∃ e1, ev1 = [e1] ∧ e1.typ = ServiceChangeType.added) := by
  obtain ⟨ha1, hb1, hc1, hd1⟩ := hv1
  obtain ⟨ha2, hb2, hc2, hd2⟩ := hv2
  have hnv1 : ¬ (i1.id = "" ∨ i1.name = "" ∨ i1.address = "" ∨ i1.port = 0) := by
    simp [ha1, hb1, hc1, hd1]
  have hnv2 : ¬ (i2.id = "" ∨ i2.name = "" ∨ i2.address = "" ∨ i2.port = 0) := by
    simp [ha2, hb2, hc2, hd2]
  by_cases hnonep : mapLookup i1.id d.services = none
  case neg =>
      obtain ⟨v, hcase⟩ := Option.ne_none_iff_exists'.mp hnonep
      refine ⟨_, _, registerService_update_branch d i1 t1 hinit hnv1 v hcase, ?_⟩
      have hex2 : mapLookup i2.id
          (notifyListeners { d with services := mapInsert i1.id i1 d.services }
            ⟨ServiceChangeType.updated, i1, t1⟩).services = some i1 := by
        rw [hid]
        exact mapLookup_mapInsert_self i1.id i1 d.services
      refine ⟨_, _, registerService_update_branch _ i2 t2 hinit hnv2 i1 hex2,
        rfl, ?_, ?_, ?_⟩
      · show countKey (mapInsert i2.id i2 (mapInsert i1.id i1 d.services)) i2.id = 1
        exact countKey_mapInsert_self i2.id i2 _
          (nodupKeys_mapInsert i1.id i1 d.services hkeys)
      · exact mapLookup_mapInsert_self i2.id i2 _
      · intro hnone; exact absurd hnone hnonep
  case pos =>
      refine ⟨_, _, registerService_add_branch d i1 t1 hinit hnv1 hnonep, ?_⟩
      have hex2 : mapLookup i2.id
          (notifyListeners
            { d with services := mapInsert i1.id (stampedInfo d i1 t1) d.services }
            ⟨ServiceChangeType.added, stampedInfo d i1 t1, t1⟩).services
          = some (stampedInfo d i1 t1) := by
        rw [hid]
        exact mapLookup_mapInsert_self i1.id _ d.services
      refine ⟨_, _, registerService_update_branch _ i2 t2 hinit hnv2 _ hex2,
        rfl, ?_, ?_, ?_⟩
      · show countKey (mapInsert i2.id i2 (mapInsert i1.id _ d.services)) i2.id = 1
        exact countKey_mapInsert_self i2.id i2 _
          (nodupKeys_mapInsert i1.id _ d.services hkeys)
      · exact mapLookup_mapInsert_self i2.id i2 _
      · intro _
        exact ⟨_, rfl, rfl⟩

/-- Witness for C2: the same ID "svc-1" registered twice on an initialized
empty registry. -/
theorem registerService_same_id_twice_witness :
    (DiscoveryService.mk "running" true true [] [] true).initialized = true
    ∧ (((DiscoveryService.mk "running" true true [] [] true).services.map
          Prod.fst).Nodup)
    ∧ validServiceInfo ⟨"svc-1", "echo", "grpc", "v1", "127.0.0.1", 9000, [], "", 0⟩
    ∧ validServiceInfo ⟨"svc-1", "echo2", "grpc", "v2", "127.0.0.2", 9001, [], "running", 3⟩
    ∧ (ServiceInfo.id ⟨"svc-1", "echo2", "grpc", "v2", "127.0.0.2", 9001, [], "running", 3⟩
        = ServiceInfo.id ⟨"svc-1", "echo", "grpc", "v1", "127.0.0.1", 9000, [], "", 0⟩)
    ∧ (∃ d1 ev1,
        registerService (DiscoveryService.mk "running" true true [] [] true)
          ⟨"svc-1", "echo", "grpc", "v1", "127.0.0.1", 9000, [], "", 0⟩ 100
          = Except.ok (d1, ev1) ∧
        ∃ d2 ev2,
          registerService d1
            ⟨"svc-1", "echo2", "grpc", "v2", "127.0.0.2", 9001, [], "running", 3⟩ 200
            = Except.ok (d2, ev2) ∧
          ev2 = [⟨ServiceChangeType.updated,
                  ⟨"svc-1", "echo2", "grpc", "v2", "127.0.0.2", 9001, [], "running", 3⟩,
                  200⟩] ∧
          countKey d2.services
            (ServiceInfo.id ⟨"svc-1", "echo2", "grpc", "v2", "127.0.0.2", 9001, [], "running", 3⟩)
            = 1 ∧
          mapLookup
            (ServiceInfo.id ⟨"svc-1", "echo2", "grpc", "v2", "127.0.0.2", 9001, [], "running", 3⟩)
            d2.services
            = some ⟨"svc-1", "echo2", "grpc", "v2", "127.0.0.2", 9001, [], "running", 3⟩ ∧
          (mapLookup
              (ServiceInfo.id ⟨"svc-1", "echo", "grpc", "v1", "127.0.0.1", 9000, [], "", 0⟩)
              (DiscoveryService.mk "running" true true [] [] true).services = none →
            ∃ e1, ev1 = [e1] ∧ e1.typ = ServiceChangeType.added)) :=
  ⟨by decide, by decide, by decide, by decide, by decide,
   registerService_same_id_twice (DiscoveryService.mk "running" true true [] [] true)
     ⟨"svc-1", "echo", "grpc", "v1", "127.0.0.1", 9000, [], "", 0⟩
     ⟨"svc-1", "echo2", "grpc", "v2", "127.0.0.2", 9001, [], "running", 3⟩
     100 200 (by decide) (by decide) (by decide) (by decide) (by decide)⟩

/-- Claim C10: re-registering an existing ID stores the caller-supplied
`ServiceInfo` verbatim — unlike first-time registration, an empty `Status`
is not replaced by the configured default and `LastUpdated` is not
re-stamped; the registry keeps exactly the supplied value. -/
theorem reregister_stores_verbatim (d : DiscoveryService) (info old : ServiceInfo)
    (now : Int) (hinit : d.initialized = true) (hv : validServiceInfo info)
    (hold : mapLookup info.id d.services = some old) :
    registerService d info now
      = Except.ok
          (notifyListeners { d with services := mapInsert info.id info d.services }
            ⟨ServiceChangeType.updated, info, now⟩,
           [⟨ServiceChangeType.updated, info, now⟩])
    ∧ mapLookup info.id (mapInsert info.id info d.services) = some info := by
  obtain ⟨ha, hb, hc, hd⟩ := hv
  have hnv : ¬ (info.id = "" ∨ info.name = "" ∨ info.address = "" ∨ info.port = 0) := by
    simp [ha, hb, hc, hd]
  exact ⟨registerService_update_branch d info now hinit hnv old hold,
         mapLookup_mapInsert_self info.id info d.services⟩

/-- Witness for C10: re-registering "svc-1" with an empty status and a
stale caller-chosen `LastUpdated` of 7 at clock time 42 — both are kept
verbatim. -/
theorem reregister_stores_verbatim_witness :
    (DiscoveryService.mk "running" true true
        [("svc-1", ⟨"svc-1", "echo", "grpc", "v1", "127.0.0.1", 9000, [], "running", 1⟩)]
        [] true).initialized = true
    ∧ validServiceInfo ⟨"svc-1", "echo", "grpc", "v1", "127.0.0.1", 9000, [], "", 7⟩
    ∧ mapLookup
        (ServiceInfo.id ⟨"svc-1", "echo", "grpc", "v1", "127.0.0.1", 9000, [], "", 7⟩)
        (DiscoveryService.mk "running" true true
          [("svc-1", ⟨"svc-1", "echo", "grpc", "v1", "127.0.0.1", 9000, [], "running", 1⟩)]
          [] true).services
        = some ⟨"svc-1", "echo", "grpc", "v1", "127.0.0.1", 9000, [], "running", 1⟩
    ∧ (registerService
          (DiscoveryService.mk "running" true true
            [("svc-1", ⟨"svc-1", "echo", "grpc", "v1", "127.0.0.1", 9000, [], "running", 1⟩)]
            [] true)
          ⟨"svc-1", "echo", "grpc", "v1", "127.0.0.1", 9000, [], "", 7⟩ 42
          = Except.ok
              (notifyListeners
                { (DiscoveryService.mk "running" true true
                    [("svc-1", ⟨"svc-1", "echo", "grpc", "v1", "127.0.0.1", 9000, [], "running", 1⟩)]
                    [] true) with
                  services := mapInsert
                    (ServiceInfo.id ⟨"svc-1", "echo", "grpc", "v1", "127.0.0.1", 9000, [], "", 7⟩)
                    ⟨"svc-1", "echo", "grpc", "v1", "127.0.0.1", 9000, [], "", 7⟩
                    (DiscoveryService.mk "running" true true
                      [("svc-1", ⟨"svc-1", "echo", "grpc", "v1", "127.0.0.1", 9000, [], "running", 1⟩)]
                      [] true).services }
                ⟨ServiceChangeType.updated,
                 ⟨"svc-1", "echo", "grpc", "v1", "127.0.0.1", 9000, [], "", 7⟩, 42⟩,
               [⟨ServiceChangeType.updated,
                 ⟨"svc-1", "echo", "grpc", "v1", "127.0.0.1", 9000, [], "", 7⟩, 42⟩])
        ∧ mapLookup
            (ServiceInfo.id ⟨"svc-1", "echo", "grpc", "v1", "127.0.0.1", 9000, [], "", 7⟩)
            (mapInsert
              (ServiceInfo.id ⟨"svc-1", "echo", "grpc", "v1", "127.0.0.1", 9000, [], "", 7⟩)
              ⟨"svc-1", "echo", "grpc", "v1", "127.0.0.1", 9000, [], "", 7⟩
              (DiscoveryService.mk "running" true true
                [("svc-1", ⟨"svc-1", "echo", "grpc", "v1", "127.0.0.1", 9000, [], "running", 1⟩)]
                [] true).services)
            = some ⟨"svc-1", "echo", "grpc", "v1", "127.0.0.1", 9000, [], "", 7⟩) :=
  ⟨by decide, by decide, by decide,
   reregister_stores_verbatim
     (DiscoveryService.mk "running" true true
       [("svc-1", ⟨"svc-1", "echo", "grpc", "v1", "127.0.0.1", 9000, [], "running", 1⟩)]
       [] true)
     ⟨"svc-1", "echo", "grpc", "v1", "127.0.0.1", 9000, [], "", 7⟩
     ⟨"svc-1", "echo", "grpc", "v1", "127.0.0.1", 9000, [], "running", 1⟩
     42 (by decide) (by decide) (by decide)⟩

/-! ## Health-check claim C6 -/

/-- Claim C6: an unhealthy check result while a service's status is
`running` sets the status to `failed`; a healthy result while the status is
not `running` sets it to `running`; each such change re-stamps
`LastUpdated` and emits exactly one `updated` event, and no event is
emitted when the status does not change. -/
theorem healthCheck_status_transitions (d : DiscoveryService) (sid : String)
    (info : ServiceInfo) (healthy : Bool) (now : Int)
    (hinit : d.initialized = true) (hhc : d.enableHealthChecks = true)
    (hlookup : mapLookup sid d.services = some info) :
    (healthy = false → info.status = "running" →
      checkServiceHealth d sid (Except.ok healthy) now
        = Except.ok (false,
            notifyListeners
              { d with services := mapInsert sid ({ info with status := "failed", lastUpdated := now }) d.services }
              ⟨ServiceChangeType.updated,
               { info with status := "failed", lastUpdated := now }, now⟩,
            [⟨ServiceChangeType.updated,
              { info with status := "failed", lastUpdated := now }, now⟩]))
    ∧ (healthy = true → info.status ≠ "running" →
      checkServiceHealth d sid (Except.ok healthy) now
        = Except.ok (true,
            notifyListeners
              { d with services := mapInsert sid ({ info with status := "running", lastUpdated := now }) d.services }
              ⟨ServiceChangeType.updated,
               { info with status := "running", lastUpdated := now }, now⟩,
            [⟨ServiceChangeType.updated,
              { info with status := "running", lastUpdated := now }, now⟩]))
    ∧ (healthy = true → info.status = "running" →
        checkServiceHealth d sid (Except.ok healthy) now = Except.ok (true, d, []))
    ∧ (healthy = false → info.status ≠ "running" →
        checkServiceHealth d sid (Except.ok healthy) now
          = Except.ok (false, d, [])) := by
  have hrf : ("running" : String) ≠ "failed" := by decide
  refine ⟨?_, ?_, ?_, ?_⟩
  · intro hh hs
    subst hh
    simp [checkServiceHealth, hinit, hhc, hlookup, updateServiceStatus, hs, hrf]
  · intro hh hs
    subst hh
    simp [checkServiceHealth, hinit, hhc, hlookup, updateServiceStatus, hs]
  · intro hh hs
    subst hh
    simp [checkServiceHealth, hinit, hhc, hlookup, hs]
  · intro hh hs
    subst hh
    simp [checkServiceHealth, hinit, hhc, hlookup, hs]

/-- Witness for C6: an unhealthy result for a `running` service flips it to
`failed` with one `updated` event. -/
theorem healthCheck_status_transitions_witness :
    (DiscoveryService.mk "running" true true
        [("s1", ⟨"s1", "echo", "grpc", "v1", "127.0.0.1", 9000, [], "running", 1⟩)]
        [("L", ⟨2, []⟩)] true).initialized = true
    ∧ (DiscoveryService.mk "running" true true
        [("s1", ⟨"s1", "echo", "grpc", "v1", "127.0.0.1", 9000, [], "running", 1⟩)]
        [("L", ⟨2, []⟩)] true).enableHealthChecks = true
    ∧ mapLookup "s1"
        (DiscoveryService.mk "running" true true
          [("s1", ⟨"s1", "echo", "grpc", "v1", "127.0.0.1", 9000, [], "running", 1⟩)]
          [("L", ⟨2, []⟩)] true).services
        = some ⟨"s1", "echo", "grpc", "v1", "127.0.0.1", 9000, [], "running", 1⟩
    ∧ checkServiceHealth
        (DiscoveryService.mk "running" true true
          [("s1", ⟨"s1", "echo", "grpc", "v1", "127.0.0.1", 9000, [], "running", 1⟩)]
          [("L", ⟨2, []⟩)] true)
        "s1" (Except.ok false) 99
        = Except.ok (false,
            notifyListeners
              { (DiscoveryService.mk "running" true true
                  [("s1", ⟨"s1", "echo", "grpc", "v1", "127.0.0.1", 9000, [], "running", 1⟩)]
                  [("L", ⟨2, []⟩)] true) with
                services := mapInsert "s1" ({ (⟨"s1", "echo", "grpc", "v1", "127.0.0.1", 9000, [], "running", 1⟩ : ServiceInfo) with status := "failed", lastUpdated := 99 }) (DiscoveryService.mk "running" true true [("s1", ⟨"s1", "echo", "grpc", "v1", "127.0.0.1", 9000, [], "running", 1⟩)] [("L", ⟨2, []⟩)] true).services }
              ⟨ServiceChangeType.updated,
               { (⟨"s1", "echo", "grpc", "v1", "127.0.0.1", 9000, [], "running", 1⟩ : ServiceInfo)
                 with status := "failed", lastUpdated := 99 }, 99⟩,
            [⟨ServiceChangeType.updated,
              { (⟨"s1", "echo", "grpc", "v1", "127.0.0.1", 9000, [], "running", 1⟩ : ServiceInfo)
                with status := "failed", lastUpdated := 99 }, 99⟩]) :=
  ⟨by decide, by decide, by decide,
   (healthCheck_status_transitions
     (DiscoveryService.mk "running" true true
       [("s1", ⟨"s1", "echo", "grpc", "v1", "127.0.0.1", 9000, [], "running", 1⟩)]
       [("L", ⟨2, []⟩)] true)
     "s1" ⟨"s1", "echo", "grpc", "v1", "127.0.0.1", 9000, [], "running", 1⟩ false 99
     (by decide) (by decide) (by decide)).1 rfl (by decide)⟩

/-! ## Watch claim C9 -/

theorem notify_delivers (d : DiscoveryService) (e : ServiceChangeEvent)
    (lid : String) (ch : Listener)
    (hl : mapLookup lid d.eventListeners = some ch) :
    mapLookup lid (notifyListeners d e).eventListeners
      = some (chanTrySend ch e) := by
  show mapLookup lid (d.eventListeners.map fun p => (p.1, chanTrySend p.2 e)) = _
  rw [mapLookup_notify, hl]
  rfl

theorem delivered_of_shape (dPre d2 : DiscoveryService)
    (evs : List ServiceChangeEvent)
    (hshape : (evs = [] ∧ d2.eventListeners = dPre.eventListeners)
      ∨ ∃ e m, evs = [e] ∧ d2 = notifyListeners { dPre with services := m } e) :
    ∀ lid' ch', mapLookup lid' dPre.eventListeners = some ch' →
      ∀ e ∈ evs, mapLookup lid' d2.eventListeners
        = some (chanTrySend ch' e) := by
  intro lid' ch' hl e he
  rcases hshape with ⟨hnil, _⟩ | ⟨e', m, hevs, hd2⟩
  · rw [hnil] at he; cases he
  · subst hd2
    rw [hevs] at he
    have heq : e = e' := List.mem_singleton.mp he
    subst heq
    exact notify_delivers _ e lid' ch' hl

theorem registerService_shape (d : DiscoveryService) (info : ServiceInfo)
    (now : Int) (d2 : DiscoveryService) (evs : List ServiceChangeEvent)
    (h : registerService d info now = Except.ok (d2, evs)) :
    ∃ e m, evs = [e] ∧ d2 = notifyListeners { d with services := m } e := by
  simp only [registerService] at h
  split at h
  · simp at h
  · split at h
    · simp at h
    · split at h <;>
      · simp only [Except.ok.injEq, Prod.mk.injEq] at h
        exact ⟨_, _, h.2.symm, h.1.symm⟩

theorem deregisterService_shape (d : DiscoveryService) (sid : String)
    (now : Int) (d2 : DiscoveryService) (evs : List ServiceChangeEvent)
    (h : deregisterService d sid now = Except.ok (d2, evs)) :
    ∃ e m, evs = [e] ∧ d2 = notifyListeners { d with services := m } e := by
  simp only [deregisterService] at h
  split at h
  · simp at h
  · split at h
    · simp at h
    · simp only [Except.ok.injEq, Prod.mk.injEq] at h
      exact ⟨_, _, h.2.symm, h.1.symm⟩

theorem updateServiceStatus_shape (d : DiscoveryService) (sid status : String)
    (now : Int) :
    ((updateServiceStatus d sid status now).2 = []
      ∧ (updateServiceStatus d sid status now).1.eventListeners
          = d.eventListeners)
    ∨ ∃ e m, (updateServiceStatus d sid status now).2 = [e]
        ∧ (updateServiceStatus d sid status now).1
            = notifyListeners { d with services := m } e := by
  simp only [updateServiceStatus]
  split
  · exact Or.inl ⟨rfl, rfl⟩
  · split
    · exact Or.inr ⟨_, _, rfl, rfl⟩
    · exact Or.inl ⟨rfl, rfl⟩

theorem checkServiceHealth_shape (d : DiscoveryService) (sid : String)
    (res : Except String Bool) (now : Int) (healthy : Bool)
    (d2 : DiscoveryService) (evs : List ServiceChangeEvent)
    (h : checkServiceHealth d sid res now = Except.ok (healthy, d2, evs)) :
    (evs = [] ∧ d2.eventListeners = d.eventListeners)
    ∨ ∃ e m, evs = [e] ∧ d2 = notifyListeners { d with services := m } e := by
  simp only [checkServiceHealth] at h
  split at h
  · simp at h
  · split at h
    · simp at h
    · split at h
      · simp at h
      · split at h
        · simp at h
        · split at h
          · simp only [Except.ok.injEq, Prod.mk.injEq] at h
            obtain ⟨-, hd2, hevs⟩ := h
            rcases updateServiceStatus_shape d sid "running" now with
              ⟨h1, h2⟩ | ⟨e, m, h1, h2⟩
            · refine Or.inl ⟨?_, ?_⟩
              · rw [← hevs]; exact h1
              · rw [← hd2]; exact h2
            · refine Or.inr ⟨e, m, ?_, ?_⟩
              · rw [← hevs]; exact h1
              · rw [← hd2]; exact h2
          · split at h
            · simp only [Except.ok.injEq, Prod.mk.injEq] at h
              obtain ⟨-, hd2, hevs⟩ := h
              rcases updateServiceStatus_shape d sid "failed" now with
                ⟨h1, h2⟩ | ⟨e, m, h1, h2⟩
              · refine Or.inl ⟨?_, ?_⟩
                · rw [← hevs]; exact h1
                · rw [← hd2]; exact h2
              · refine Or.inr ⟨e, m, ?_, ?_⟩
                · rw [← hevs]; exact h1
                · rw [← hd2]; exact h2
            · simp only [Except.ok.injEq, Prod.mk.injEq] at h
              obtain ⟨-, hd2, hevs⟩ := h
              refine Or.inl ⟨hevs.symm, ?_⟩
              rw [← hd2]

theorem foldReplay_spec (f : ServiceFilter) (now : Int) :
    ∀ (l : List ServiceInfo) (c : Listener),
      ∃ evs,
        l.foldl (fun c info =>
          if serviceFilterMatches f info then
            chanTrySend c ⟨ServiceChangeType.added, info, now⟩
          else c) c
          = { capacity := c.capacity, buffer := c.buffer ++ evs }
        ∧ ∀ e ∈ evs, e.typ = ServiceChangeType.added
            ∧ serviceFilterMatches f e.serviceInfo = true := by
  intro l
  induction l with
  | nil =>
      intro c
      exact ⟨[], by simp, by simp⟩
  | cons x xs ih =>
      intro c
      rw [List.foldl_cons]
      by_cases hx : serviceFilterMatches f x = true
      · rw [if_pos hx]
        by_cases hroom : c.buffer.length < c.capacity
        · have hsend : chanTrySend c ⟨ServiceChangeType.added, x, now⟩
              = { capacity := c.capacity,
                  buffer := c.buffer ++ [⟨ServiceChangeType.added, x, now⟩] } := by
            simp [chanTrySend, hroom]
          rw [hsend]
          obtain ⟨evs, heq, hall⟩ := ih { capacity := c.capacity, buffer := c.buffer ++ [⟨ServiceChangeType.added, x, now⟩] }
          refine ⟨⟨ServiceChangeType.added, x, now⟩ :: evs, ?_, ?_⟩
          · rw [heq]; simp
          · intro e he
            rcases List.mem_cons.mp he with heq2 | hmem
            · subst heq2; exact ⟨rfl, hx⟩
            · exact hall e hmem
        · have hsend : chanTrySend c ⟨ServiceChangeType.added, x, now⟩ = c := by
            simp [chanTrySend, hroom]
          rw [hsend]
          exact ih c
      · rw [if_neg hx]
        exact ih c

/-- Claim C9: the filter given to `WatchServices` constrains only the
synchronous replay of already-registered services — every event the replay
adds to the watcher's channel is an `added` event for a service matching
the filter. The listener is stored without its filter, and every
subsequent change event produced by a registry mutation — `added` or
`updated` from `RegisterService` (fresh or re-registration), `removed`
from `DeregisterService`, `updated` from a health-driven status change —
is delivered non-blocking and best-effort (`chanTrySend`: enqueued when
the sink has room, dropped otherwise, other listeners unaffected) to every
registered listener's channel with no filter consulted, hence including
events for services that do not match that watcher's filter. -/
theorem watch_filter_only_replay (d : DiscoveryService) (f : ServiceFilter)
    (lid : String) (ch : Listener) (t1 : Int)
    (hinit : d.initialized = true) (hwatch : d.enableWatching = true) :
    ∃ d1, watchServices d f lid (some ch) t1 = Except.ok (d1, lid)
      ∧ d1.services = d.services
      ∧ (∃ evs, mapLookup lid d1.eventListeners
            = some { capacity := ch.capacity, buffer := ch.buffer ++ evs }
          ∧ ∀ e ∈ evs, e.typ = ServiceChangeType.added
              ∧ serviceFilterMatches f e.serviceInfo = true)
      ∧ (∀ info now d2 evs2,
          registerService d1 info now = Except.ok (d2, evs2) →
          ∀ lid' ch', mapLookup lid' d1.eventListeners = some ch' →
            ∀ e ∈ evs2, mapLookup lid' d2.eventListeners
              = some (chanTrySend ch' e))
      ∧ (∀ sid now d2 evs2,
          deregisterService d1 sid now = Except.ok (d2, evs2) →
          ∀ lid' ch', mapLookup lid' d1.eventListeners = some ch' →
            ∀ e ∈ evs2, mapLookup lid' d2.eventListeners
              = some (chanTrySend ch' e))
      ∧ (∀ sid res now healthy d2 evs2,
          checkServiceHealth d1 sid res now = Except.ok (healthy, d2, evs2) →
          ∀ lid' ch', mapLookup lid' d1.eventListeners = some ch' →
            ∀ e ∈ evs2, mapLookup lid' d2.eventListeners
              = some (chanTrySend ch' e)) := by
  obtain ⟨evs, hfold, hevs⟩ := foldReplay_spec f t1 (d.services.map Prod.snd) ch
  have hrc : replayChannel d f ch t1
      = { capacity := ch.capacity, buffer := ch.buffer ++ evs } := hfold
  refine ⟨{ d with eventListeners := mapInsert lid (replayChannel d f ch t1) d.eventListeners },
    ?_, rfl, ⟨evs, ?_, hevs⟩, ?_, ?_, ?_⟩
  · simp [watchServices, hinit, hwatch]
  · have hself := mapLookup_mapInsert_self lid (replayChannel d f ch t1) d.eventListeners
    exact hself.trans (by rw [hrc])
  · intro info now d2 evs2 hop
    exact delivered_of_shape _ d2 evs2
      (Or.inr (registerService_shape _ info now d2 evs2 hop))
  · intro sid now d2 evs2 hop
    exact delivered_of_shape _ d2 evs2
      (Or.inr (deregisterService_shape _ sid now d2 evs2 hop))
  · intro sid res now healthy d2 evs2 hop
    exact delivered_of_shape _ d2 evs2
      (checkServiceHealth_shape _ sid res now healthy d2 evs2 hop)

/-- Witness for C9 at a concrete registry, filter, listener id and
channel. -/
theorem watch_filter_only_replay_witness :
    (DiscoveryService.mk "running" true true [] [] true).initialized = true
    ∧ (DiscoveryService.mk "running" true true [] [] true).enableWatching = true
    ∧ (∃ d1, watchServices (DiscoveryService.mk "running" true true [] [] true)
          ⟨"", "", "other", "", []⟩ "L1" (some (Listener.mk 4 [])) 10
          = Except.ok (d1, "L1")
        ∧ d1.services
            = (DiscoveryService.mk "running" true true [] [] true).services
        ∧ (∃ evs, mapLookup "L1" d1.eventListeners
              = some { capacity := (Listener.mk 4 []).capacity,
                       buffer := (Listener.mk 4 []).buffer ++ evs }
            ∧ ∀ e ∈ evs, e.typ = ServiceChangeType.added
                ∧ serviceFilterMatches ⟨"", "", "other", "", []⟩ e.serviceInfo
                    = true)
        ∧ (∀ info now d2 evs2,
            registerService d1 info now = Except.ok (d2, evs2) →
            ∀ lid' ch', mapLookup lid' d1.eventListeners = some ch' →
              ∀ e ∈ evs2, mapLookup lid' d2.eventListeners
                = some (chanTrySend ch' e))
        ∧ (∀ sid now d2 evs2,
            deregisterService d1 sid now = Except.ok (d2, evs2) →
            ∀ lid' ch', mapLookup lid' d1.eventListeners = some ch' →
              ∀ e ∈ evs2, mapLookup lid' d2.eventListeners
                = some (chanTrySend ch' e))
        ∧ (∀ sid res now healthy d2 evs2,
            checkServiceHealth d1 sid res now = Except.ok (healthy, d2, evs2) →
            ∀ lid' ch', mapLookup lid' d1.eventListeners = some ch' →
              ∀ e ∈ evs2, mapLookup lid' d2.eventListeners
                = some (chanTrySend ch' e))) :=
  ⟨by decide, by decide,
   watch_filter_only_replay (DiscoveryService.mk "running" true true [] [] true)
     ⟨"", "", "other", "", []⟩ "L1" (Listener.mk 4 []) 10
     (by decide) (by decide)⟩

end QuantBridge
